import Mathlib

/-!
A shallow embedding of the SAC + PER + HER learning update engine of
`algos/pytorch/sac_sp/sac_per_her.py` (class `SACTorch`), together with
theorems that check the specification's claims about the loss engine, the
update orchestrator, the critic-parameter freeze around the actor step, and
the action selector.

Modelling conventions:
* numeric values are rationals (`ℚ`); batched 1-D tensors are lists, and
  elementwise tensor arithmetic is `List.zipWith` / `List.map`;
* the actor-critic networks are abstract functions (the spec treats the
  actor-critic module as an external black-box function approximator);
* the optimizer steps (`Adam.step`) are abstract parameter-vector
  transformers: their numeric content depends on autograd internals, but
  the orchestration around them is embedded exactly;
* randomness is made explicit: stochastic draws are extra arguments.
-/

namespace SacPerHer

/-- A batched 1-D tensor of rationals, or a flattened parameter vector. -/
abbrev Vec := List ℚ

/-- `tensor.mean()`: sum divided by length. -/
def mean (xs : List ℚ) : ℚ := xs.sum / (xs.length : ℚ)

/-- Elementwise combination of three tensors (tensors of a batch share one
length, so truncation never fires on well-formed inputs). -/
def zipWith3 (f : α → β → γ → δ) : List α → List β → List γ → List δ
  | x :: xs, y :: ys, z :: zs => f x y z :: zipWith3 f xs ys zs
  | _, _, _ => []

theorem zipWith3_nil (f : α → β → γ → δ) (ys : List β) (zs : List γ) :
    zipWith3 f [] ys zs = [] := by
  cases ys <;> cases zs <;> rfl

theorem zipWith3_cons (f : α → β → γ → δ) (x : α) (y : β) (z : γ)
    (xs : List α) (ys : List β) (zs : List γ) :
    zipWith3 f (x :: xs) (y :: ys) (z :: zs) = f x y z :: zipWith3 f xs ys zs := rfl

/-- Three elementwise maps of one batch, combined elementwise, form one map. -/
theorem zipWith3_map_same (f : β → γ → δ → ε) (g1 : α → β) (g2 : α → γ) (g3 : α → δ) :
    ∀ l : List α, zipWith3 f (l.map g1) (l.map g2) (l.map g3)
      = l.map (fun x => f (g1 x) (g2 x) (g3 x))
  | [] => rfl
  | x :: xs => by
      simp only [List.map_cons, zipWith3_cons, zipWith3_map_same f g1 g2 g3 xs]

/-- Combining a weight tensor with two elementwise maps of one batch. -/
theorem zipWith3_left_maps (f : β → γ → δ → ε) (g : α → γ) (h : α → δ) :
    ∀ (w : List β) (l : List α), zipWith3 f w (l.map g) (l.map h)
      = List.zipWith (fun wi x => f wi (g x) (h x)) w l
  | [], [] => rfl
  | [], _ :: _ => rfl
  | _ :: _, [] => rfl
  | wi :: ws, x :: xs => by
      simp only [List.map_cons, zipWith3_cons, List.zipWith_cons_cons,
        zipWith3_left_maps f g h ws xs]

/-- Two elementwise maps of one batch, combined elementwise, form one map. -/
theorem zipWith_map_same (f : β → γ → δ) (g : α → β) (h : α → γ) :
    ∀ l : List α, List.zipWith f (l.map g) (l.map h) = l.map (fun x => f (g x) (h x))
  | [] => rfl
  | x :: xs => by
      simp only [List.map_cons, List.zipWith_cons_cons, zipWith_map_same f g h xs]

/-- A batch combined elementwise with a map of itself forms one map. -/
theorem zipWith_self_map (f : α → β → γ) (g : α → β) :
    ∀ l : List α, List.zipWith f l (l.map g) = l.map (fun x => f x (g x))
  | [] => rfl
  | x :: xs => by
      simp only [List.map_cons, List.zipWith_cons_cons, zipWith_self_map f g xs]

/-- Pointwise equal combining functions give equal elementwise combinations. -/
theorem zipWith_ext (f g : α → β → γ) (h : ∀ x y, f x y = g x y)
    (l₁ : List α) (l₂ : List β) : List.zipWith f l₁ l₂ = List.zipWith g l₁ l₂ := by
  have : f = g := funext fun x => funext fun y => h x y
  rw [this]

/-! ## Data model -/

/-- One transition `(obs, act, rew, obs2, done)` as stored in the
prioritized replay's `batch_memory` rows (indices `[0]..[4]`). -/
structure Transition where
  o : Vec
  a : Vec
  r : ℚ
  o2 : Vec
  d : ℚ

/-- The non-prioritized batch: a mapping field-name → stacked tensor with
keys `obs`, `act`, `rew`, `obs2`, `done`. -/
structure UBatch where
  obs : List Vec
  act : List Vec
  rew : List ℚ
  obs2 : List Vec
  done : List ℚ

/-- What `replay_buffer.sample_batch` returns: in prioritized mode the
triple `(tree_idx, batch_memory, ISWeights)`, otherwise the field map. -/
inductive Data where
  | per (tree_idx : List ℕ) (batch_memory : List Transition) (ISWeights : List ℚ)
  | uniform (b : UBatch)

/-- The actor-critic module: stochastic policy `pi` returning a sampled
action together with its log-probability, and the twin critics `q1`, `q2`.
All three are abstract per-sample functions; the batched tensor calls of
the source apply them elementwise. -/
structure ActorCritic where
  pi : Vec → Vec × ℚ
  q1 : Vec → Vec → ℚ
  q2 : Vec → Vec → ℚ

/-- The slice of `SACTorch` state that the loss engine reads:
the prioritized-replay flag, the discount `gamma`, the entropy coefficient
`alpha`, the live module `ac` and the target shadow `ac_targ`. -/
structure Agent where
  per_flag : Bool
  gamma : ℚ
  alpha : ℚ
  ac : ActorCritic
  ac_targ : ActorCritic

/-! ## Loss engine: `compute_loss_q` -/

/-- The Bellman backup tensor of `compute_loss_q`:
`a2, logp_a2 = self.ac.pi(o2)` (live policy),
`q_pi_targ = torch.min(self.ac_targ.q1(o2, a2), self.ac_targ.q2(o2, a2))`,
`backup = r + self.gamma * (1 - d) * (q_pi_targ - self.alpha * logp_a2)`,
all elementwise over the batch. -/
def backupOf (ag : Agent) (r : List ℚ) (o2 : List Vec) (d : List ℚ) : List ℚ :=
  zipWith3 (fun ri o2i di =>
    let p := ag.ac.pi o2i
    let q_pi_targ := min (ag.ac_targ.q1 o2i p.1) (ag.ac_targ.q2 o2i p.1)
    ri + ag.gamma * (1 - di) * (q_pi_targ - ag.alpha * p.2)) r o2 d

/-- The diagnostics dictionary `loss_info` of `compute_loss_q`; the two
optional fields are present exactly in prioritized mode. -/
structure LossInfo where
  Q1Vals : List ℚ
  Q2Vals : List ℚ
  abs_errors : Option (List ℚ)
  tree_idx : Option (List ℕ)

/-- The body of `compute_loss_q` after batch extraction, which is common to
both modes: the stacked tensors `(o, a, r, o2, d)` plus, in prioritized
mode, `(tree_idx, ISWeights)`.  Mirrors the source line by line: the
unweighted `loss_q` is computed first and then overwritten by the
IS-weighted loss when `per_flag` holds. -/
def lossCore (ag : Agent) (perInfo : Option (List ℕ × List ℚ))
    (o a : List Vec) (r : List ℚ) (o2 : List Vec) (d : List ℚ) : ℚ × LossInfo :=
  let q1 := List.zipWith ag.ac.q1 o a
  let q2 := List.zipWith ag.ac.q2 o a
  let backup := backupOf ag r o2 d
  let loss_q1 := mean (List.zipWith (fun q bk => (q - bk) ^ 2) q1 backup)
  let loss_q2 := mean (List.zipWith (fun q bk => (q - bk) ^ 2) q2 backup)
  let loss_q := loss_q1 + loss_q2
  match perInfo with
  | some (tree_idx, ISWeights) =>
      let loss_q := mean (zipWith3 (fun w e1 e2 => w * (e1 + e2)) ISWeights
        (List.zipWith (fun q bk => (q - bk) ^ 2) q1 backup)
        (List.zipWith (fun q bk => (q - bk) ^ 2) q2 backup))
      let abs_errors := zipWith3 (fun bk x y => |bk - (x + y) / 2|) backup q1 q2
      (loss_q, ⟨q1, q2, some abs_errors, some tree_idx⟩)
  | none => (loss_q, ⟨q1, q2, none, none⟩)

/-- `SACTorch.compute_loss_q`.  In prioritized mode the source unpacks
`tree_idx, batch_memory, ISWeights = data` and stacks the five per-sample
fields; otherwise it reads the five named tensors from the mapping.  A
shape mismatch between `per_flag` and the sampled data raises in Python
(tuple-unpacking a 5-key mapping, resp. string-indexing a tuple), modelled
as `Except.error`. -/
def compute_loss_q (ag : Agent) (data : Data) : Except String (ℚ × LossInfo) :=
  match ag.per_flag, data with
  | true, .per tree_idx batch_memory ISWeights =>
      .ok (lossCore ag (some (tree_idx, ISWeights))
        (batch_memory.map (·.o)) (batch_memory.map (·.a)) (batch_memory.map (·.r))
        (batch_memory.map (·.o2)) (batch_memory.map (·.d)))
  | false, .uniform b =>
      .ok (lossCore ag none b.obs b.act b.rew b.obs2 b.done)
  | true, .uniform _ =>
      .error "ValueError: too many values to unpack (expected 3)"
  | false, .per _ _ _ =>
      .error "TypeError: tuple indices must be integers, not str"

/-- Projection: the scalar loss of a successful `compute_loss_q`. -/
def lossOf (e : Except String (ℚ × LossInfo)) : Option ℚ :=
  match e with
  | .ok x => some x.1
  | .error _ => none

/-- Projection: the `abs_errors` diagnostic of a successful `compute_loss_q`. -/
def absErrorsOf (e : Except String (ℚ × LossInfo)) : Option (List ℚ) :=
  match e with
  | .ok x => x.2.abs_errors
  | .error _ => none

/-- Projection: the `tree_idx` diagnostic of a successful `compute_loss_q`. -/
def treeIdxOf (e : Except String (ℚ × LossInfo)) : Option (List ℕ) :=
  match e with
  | .ok x => x.2.tree_idx
  | .error _ => none

/-- Projection: the raw Q1 values of a successful `compute_loss_q`. -/
def q1ValsOf (e : Except String (ℚ × LossInfo)) : Option (List ℚ) :=
  match e with
  | .ok x => some x.2.Q1Vals
  | .error _ => none

/-- Projection: the raw Q2 values of a successful `compute_loss_q`. -/
def q2ValsOf (e : Except String (ℚ × LossInfo)) : Option (List ℚ) :=
  match e with
  | .ok x => some x.2.Q2Vals
  | .error _ => none

/-! ## Spec-side formulas (written from the specification's words, to be
compared against the embedded source) -/

/-- Spec-side per-sample backup, §4.1: sample `(a2, logp(a2))` from the
*live* policy at `o2`, evaluate the target critics at `(o2, a2)`, take the
elementwise minimum, and form
`backup = r + gamma·(1−d)·(min_Q_targ − alpha·logp(a2))`. -/
def specBackup (ag : Agent) (t : Transition) : ℚ :=
  let a2 := (ag.ac.pi t.o2).1
  let logp_a2 := (ag.ac.pi t.o2).2
  let min_Q_targ := min (ag.ac_targ.q1 t.o2 a2) (ag.ac_targ.q2 t.o2 a2)
  t.r + ag.gamma * (1 - t.d) * (min_Q_targ - ag.alpha * logp_a2)

/-- Spec-side prioritized critic loss, §4.1:
`mean(importance_weight · [(Q1−backup)² + (Q2−backup)²])` per sample. -/
def specLossPER (ag : Agent) (batch : List Transition) (w : List ℚ) : ℚ :=
  mean (List.zipWith (fun wi t =>
      wi * ((ag.ac.q1 t.o t.a - specBackup ag t) ^ 2
            + (ag.ac.q2 t.o t.a - specBackup ag t) ^ 2)) w batch)

/-- Spec-side per-sample priority signal, §4.1:
`abs_errors = |backup − (Q1+Q2)/2|`. -/
def specAbsError (ag : Agent) (t : Transition) : ℚ :=
  |specBackup ag t - (ag.ac.q1 t.o t.a + ag.ac.q2 t.o t.a) / 2|

/-- Stacking the per-sample fields of a batch and forming the code's
backup tensor is the per-sample spec backup, mapped over the batch. -/
theorem backupOf_map (ag : Agent) (batch : List Transition) :
    backupOf ag (batch.map (·.r)) (batch.map (·.o2)) (batch.map (·.d))
      = batch.map (specBackup ag) :=
  zipWith3_map_same _ _ _ _ batch

/-! ## Loss engine: `compute_loss_pi` -/

/-- The body of `compute_loss_pi` after observation extraction:
`pi, logp_pi = self.ac.pi(o)` (fresh resample at the batch observations),
`q1_pi = self.ac.q1(o, pi)`, `q2_pi = self.ac.q2(o, pi)`,
`q_pi = torch.min(q1_pi, q2_pi)`,
`loss_pi = (self.alpha * logp_pi - q_pi).mean()`; returns the loss and the
log-probabilities kept for diagnostics (`pi_info`). -/
def lossPiCore (ag : Agent) (o : List Vec) : ℚ × List ℚ :=
  let piLogp := o.map ag.ac.pi
  let q1_pi := List.zipWith (fun oi p => ag.ac.q1 oi p.1) o piLogp
  let q2_pi := List.zipWith (fun oi p => ag.ac.q2 oi p.1) o piLogp
  let q_pi := List.zipWith min q1_pi q2_pi
  let logp_pi := piLogp.map (·.2)
  (mean (List.zipWith (fun lp q => ag.alpha * lp - q) logp_pi q_pi), logp_pi)

/-- `SACTorch.compute_loss_pi`: in prioritized mode unpack the triple and
stack the observations `batch_memory[i][0]`; otherwise read `data['obs']`.
Shape mismatches raise, as in `compute_loss_q`. -/
def compute_loss_pi (ag : Agent) (data : Data) : Except String (ℚ × List ℚ) :=
  match ag.per_flag, data with
  | true, .per _ batch_memory _ =>
      .ok (lossPiCore ag (batch_memory.map (·.o)))
  | false, .uniform b =>
      .ok (lossPiCore ag b.obs)
  | true, .uniform _ =>
      .error "ValueError: too many values to unpack (expected 3)"
  | false, .per _ _ _ =>
      .error "TypeError: tuple indices must be integers, not str"

/-- Projection: the scalar loss of a successful `compute_loss_pi`. -/
def lossPiOf (e : Except String (ℚ × List ℚ)) : Option ℚ :=
  match e with
  | .ok x => some x.1
  | .error _ => none

/-- Spec-side actor loss, §4.1: resample `(a, logp(a))` from the live
policy at `o`, evaluate both live critics at `(o, a)`, take the
elementwise minimum, and form `loss = mean(alpha·logp(a) − min_Q)`. -/
def specLossPi (ag : Agent) (o : List Vec) : ℚ :=
  mean (o.map (fun oi =>
    ag.alpha * (ag.ac.pi oi).2
      - min (ag.ac.q1 oi (ag.ac.pi oi).1) (ag.ac.q2 oi (ag.ac.pi oi).1)))

/-- The embedded `compute_loss_pi` body agrees with the spec formula. -/
theorem lossPiCore_eq_spec (ag : Agent) (o : List Vec) :
    (lossPiCore ag o).1 = specLossPi ag o := by
  simp only [lossPiCore, specLossPi, zipWith_self_map, zipWith_map_same,
    List.map_map]
  rfl

/-! ## Update orchestrator: `learn` -/

/-- The parameter and counter state that `SACTorch.learn` acts on.
`pi`/`q` are the live actor and critic parameter vectors (flattened, the
two critics together); `pi_targ`/`q_targ` are the target shadow's;
`learn_step` is the internal step counter of the base class; `qGradSteps`
and `piGradSteps` count the optimizer steps applied so far (one per
executed `q_optimizer.step()` resp. `pi_optimizer.step()`). -/
structure LearnState where
  pi : Vec
  q : Vec
  pi_targ : Vec
  q_targ : Vec
  learn_step : ℕ
  qGradSteps : ℕ
  piGradSteps : ℕ

/-- `p_targ.data.mul_(self.polyak); p_targ.data.add_((1 - self.polyak) * p.data)`
over the zipped live/target parameter sequences: the in-place polyak
update of the target shadow. -/
def polyakUpdate (polyak : ℚ) (targ live : Vec) : Vec :=
  List.zipWith (fun p_targ p => p_targ * polyak + (1 - polyak) * p) targ live

/-- Modelled from the spec: the base class `OffPolicy`
(`algos/pytorch/offPolicy/baseOffPolicy.py`, not among the sources)
initializes the internal step counter `self.learn_step`; the spec's
scenario fixes the counter of the first call as `step_counter = 0`
("Step 1 (step_counter=0)"). -/
def initLearnStep : ℕ := 0

/-- `SACTorch.learn`.  The two optimizer steps are abstracted as
parameter-vector transformers `Uq` (the critic Adam step induced by the
critic-loss gradients) and `Upi` (the actor Adam step); everything else —
which update runs on which call, the polyak target update and its operand
order, and the counter increment — is embedded exactly:
critic step always; then, iff `self.learn_step % self.policy_delay == 0`,
the actor step followed by the in-place target update
`p_targ ← polyak·p_targ + (1−polyak)·p` over `zip(ac.parameters(),
ac_targ.parameters())` (split here into the actor and critic parts);
finally `self.learn_step += 1`. -/
def learn (Uq Upi : Vec → Vec) (policy_delay : ℕ) (polyak : ℚ)
    (st : LearnState) : LearnState :=
  -- First run one gradient descent step for Q1 and Q2
  let st1 : LearnState := { st with q := Uq st.q, qGradSteps := st.qGradSteps + 1 }
  -- Possibly update pi and target networks
  let st2 : LearnState :=
    if st1.learn_step % policy_delay = 0 then
      let st2 : LearnState :=
        { st1 with pi := Upi st1.pi, piGradSteps := st1.piGradSteps + 1 }
      { st2 with
        pi_targ := polyakUpdate polyak st2.pi_targ st2.pi,
        q_targ := polyakUpdate polyak st2.q_targ st2.q }
    else st1
  { st2 with learn_step := st2.learn_step + 1 }

/-! ## Critic-parameter freeze around the actor step

`__init__` stores `self.q_params = itertools.chain(self.ac.q1.parameters(),
self.ac.q2.parameters())` — a one-shot iterator — and immediately passes it
to `Adam(self.q_params, lr=q_lr)`.  The freeze/unfreeze loops in `learn`
then iterate `self.q_params` again.  The iterator semantics is modelled
explicitly so that this interaction is captured. -/

/-- A one-shot iterator over parameter handles, as `itertools.chain`
returns: iterating it consumes it. -/
structure ChainIter where
  remaining : List ℕ

/-- Iterating a chain to the end (as a `for` loop or the `Adam`
constructor's parameter collection does): yields the elements still
remaining and leaves the iterator exhausted. -/
def ChainIter.drain (it : ChainIter) : List ℕ × ChainIter :=
  (it.remaining, ⟨[]⟩)

/-- `requires_grad` bookkeeping for the critic parameters: one flag per
parameter of `q1` and `q2` (indices `0..n-1`), the stored `self.q_params`
chain, and the parameter list captured by the `Adam` constructor. -/
structure QGradState where
  requires_grad : List Bool
  q_params : ChainIter
  adam_params : List ℕ

/-- `SACTorch.__init__`, restricted to the critic-parameter bookkeeping:
all live parameters start with `requires_grad = True`;
`self.q_params = itertools.chain(self.ac.q1.parameters(), self.ac.q2.parameters())`;
`self.q_optimizer = Adam(self.q_params, lr=q_lr)` — the constructor
iterates (and thereby exhausts) the stored chain. -/
def initQGrad (n : ℕ) : QGradState :=
  let q_params : ChainIter := ⟨List.range n⟩
  let drained := q_params.drain
  { requires_grad := List.replicate n true
    q_params := drained.2
    adam_params := drained.1 }

/-- `for p in ps: p.requires_grad = v` on the flag list. -/
def setFlags (flags : List Bool) (ps : List ℕ) (v : Bool) : List Bool :=
  ps.foldl (fun fs i => fs.set i v) flags

/-- `for p in self.q_params: p.requires_grad = False` inside `learn`:
iterates whatever is left in the stored chain. -/
def freezeQ (st : QGradState) : QGradState :=
  let drained := st.q_params.drain
  { st with requires_grad := setFlags st.requires_grad drained.1 false
            q_params := drained.2 }

/-- `for p in self.q_params: p.requires_grad = True` inside `learn`. -/
def unfreezeQ (st : QGradState) : QGradState :=
  let drained := st.q_params.drain
  { st with requires_grad := setFlags st.requires_grad drained.1 true
            q_params := drained.2 }

/-- The delayed actor step's freeze → backward → unfreeze sequence;
returns the critic `requires_grad` flags in force during
`loss_pi.backward()` together with the state afterwards. -/
def actorStepQFlags (st : QGradState) : List Bool × QGradState :=
  let st1 := freezeQ st
  let during := st1.requires_grad
  let st2 := unfreezeQ st1
  (during, st2)

/-! ## Action selector: `get_action` -/

/-- The action-selection slice of agent state.  `action_noise` is the
constructor argument `act_noise` as stored by the base class
(`self.action_noise`); `actMean` is `self.ac.act(s, deterministic=True)`,
the policy's mean path.  The stochastic draw
`self.ac.act(s, deterministic=False)` and the `np.random.randn` stream are
supplied by the caller: randomness is explicit. -/
structure ActAgent where
  norm : Option (Vec → Vec)
  action_noise : ℚ
  a_bound : ℚ
  actMean : Vec → Vec

/-- `if self.norm is not None: s = self.norm.normalize(v=s)`. -/
def normObs (ag : ActAgent) (s : Vec) : Vec :=
  match ag.norm with
  | some f => f s
  | none => s

/-- `a += noise_scale * np.random.randn(self.act_dim)` elementwise, with
the RNG stream `randn` explicit; the draw vector has the action's length
(`act_dim`, the policy's output dimension). -/
def addNoise (ns : ℚ) (randn : ℕ → ℚ) : List ℚ → ℕ → List ℚ
  | [], _ => []
  | x :: xs, i => (x + ns * randn i) :: addNoise ns randn xs (i + 1)

/-- With a zero scale the added noise vanishes. -/
theorem addNoise_zero (randn : ℕ → ℚ) :
    ∀ (l : List ℚ) (i : ℕ), addNoise 0 randn l i = l
  | [], _ => rfl
  | x :: xs, i => by
      simp only [addNoise, addNoise_zero randn xs (i + 1), zero_mul, add_zero]

/-- `np.clip(a, -self.a_bound, self.a_bound)` elementwise. -/
def clipVec (bound : ℚ) (a : List ℚ) : List ℚ :=
  a.map (fun x => min bound (max (-bound) x))

/-- `SACTorch.get_action`.  `piSample` stands for the stochastic policy
draw `self.ac.act(s, deterministic=False)` of this call and `randn` for
this call's `np.random.randn` stream. -/
def get_action (ag : ActAgent) (s : Vec) (noise_scale : ℚ)
    (piSample : Vec) (randn : ℕ → ℚ) : Vec :=
  let s1 := normObs ag s
  -- `if not noise_scale: noise_scale = self.action_noise`
  let ns := if noise_scale = 0 then ag.action_noise else noise_scale
  -- `deterministic = True if noise_scale == 0 else False`
  -- `a = self.ac.act(s_cuda, deterministic=deterministic)`
  let a := if ns = 0 then ag.actMean s1 else piSample
  -- `a += noise_scale * np.random.randn(self.act_dim)`
  -- `return np.clip(a, -self.a_bound, self.a_bound)`
  clipVec ag.a_bound (addNoise ns randn a 0)

/-- The 1% form of the update with `polyak = 99/100`:
`t·(99/100) + (1/100)·p = t + (1/100)·(p − t)` elementwise. -/
theorem polyakUpdate_onepercent (targ live : Vec) :
    polyakUpdate (99/100) targ live
      = List.zipWith (fun t p => t + 1/100 * (p - t)) targ live :=
  zipWith_ext _ _ (fun t p => by ring) targ live

/-! ## Concrete fixtures for witnesses and counterexamples -/

/-- A tiny concrete actor-critic module. -/
def acW : ActorCritic :=
  { pi := fun _ => ([0], 0), q1 := fun _ _ => 0, q2 := fun _ _ => 0 }

/-- A concrete prioritized agent with the spec's hyperparameters. -/
def agW : Agent :=
  { per_flag := true, gamma := 9/10, alpha := 1/5, ac := acW, ac_targ := acW }

/-- The same agent in non-prioritized mode. -/
def agWU : Agent := { agW with per_flag := false }

/-- A concrete terminal transition. -/
def tW : Transition := ⟨[0], [0], 1, [0], 1⟩

/-- A concrete one-sample field-map batch. -/
def ubW : UBatch := ⟨[[0]], [[0]], [1], [[0]], [0]⟩

/-- Networks realizing the spec's C4 scenario: on the four observations
`[1]..[4]`, `q1` returns `1,1,3,5` and `q2` returns `1,3,3,3`; the target
critics and the policy are irrelevant because every sample is terminal. -/
def c4AC : ActorCritic :=
  { pi := fun _ => ([0], 0)
    q1 := fun o _ =>
      if o = [1] then 1 else if o = [2] then 1 else if o = [3] then 3 else 5
    q2 := fun o _ => if o = [1] then 1 else 3 }

/-- The prioritized agent of the C4 scenario. -/
def c4Agent : Agent :=
  { per_flag := true, gamma := 9/10, alpha := 1/5, ac := c4AC, ac_targ := c4AC }

/-- Four terminal transitions with rewards `1,2,3,4`, so that the backup
tensor is exactly `[1, 2, 3, 4]`. -/
def c4Batch : List Transition :=
  [⟨[1], [0], 1, [0], 1⟩, ⟨[2], [0], 2, [0], 1⟩,
   ⟨[3], [0], 3, [0], 1⟩, ⟨[4], [0], 4, [0], 1⟩]

/-- The sampled prioritized data of the C4 scenario. -/
def c4Data : Data := .per [0, 1, 2, 3] c4Batch [1, 1, 1, 1]

/-- A concrete learn state at the first call (`learn_step = 0`). -/
def stA : LearnState := ⟨[1], [1], [0], [0], initLearnStep, 0, 0⟩

/-- A concrete learn state at the second call (`learn_step = 1`). -/
def stB : LearnState := ⟨[1], [1], [0], [0], 1, 0, 0⟩

/-- A concrete action-selection agent with the default `act_noise = 0.1`. -/
def c6Agent : ActAgent :=
  { norm := none, action_noise := 1/10, a_bound := 2, actMean := fun _ => [0] }

/-- The same agent with the constructor noise set to 0. -/
def c6AgentDet : ActAgent := { c6Agent with action_noise := 0 }

/-! ## The claims -/

/-- C1: for every batch, `compute_loss_q` builds the Bellman backup as
`backup = r + gamma·(1−d)·(min(Q1_targ(o2,a2), Q2_targ(o2,a2)) − alpha·logp(a2))`
with `(a2, logp(a2))` sampled from the live policy at `o2`, and returns in
non-prioritized mode `mean((Q1−backup)²) + mean((Q2−backup)²)` and in
prioritized mode `mean(importance_weight · [(Q1−backup)² + (Q2−backup)²])`. -/
theorem critic_loss_formula (ag : Agent) (tree : List ℕ)
    (batch : List Transition) (w : List ℚ) (b : UBatch) :
    (ag.per_flag = true →
      lossOf (compute_loss_q ag (.per tree batch w)) = some (specLossPER ag batch w))
    ∧ (ag.per_flag = false →
      lossOf (compute_loss_q ag (.uniform b))
        = some (mean (List.zipWith (fun q bk => (q - bk) ^ 2)
              (List.zipWith ag.ac.q1 b.obs b.act) (backupOf ag b.rew b.obs2 b.done))
            + mean (List.zipWith (fun q bk => (q - bk) ^ 2)
              (List.zipWith ag.ac.q2 b.obs b.act) (backupOf ag b.rew b.obs2 b.done)))) := by
  constructor <;> intro h
  · simp only [compute_loss_q, h, lossOf, lossCore, specLossPER, backupOf_map,
      zipWith_map_same, zipWith3_left_maps]
  · simp only [compute_loss_q, h, lossOf, lossCore]

/-- Witness for C1 at concrete agents and batches, in both modes. -/
theorem critic_loss_formula_witness :
    lossOf (compute_loss_q agW (.per [0] [tW] [1])) = some (specLossPER agW [tW] [1])
    ∧ lossOf (compute_loss_q agWU (.uniform ubW))
        = some (mean (List.zipWith (fun q bk => (q - bk) ^ 2)
              (List.zipWith agWU.ac.q1 ubW.obs ubW.act)
              (backupOf agWU ubW.rew ubW.obs2 ubW.done))
            + mean (List.zipWith (fun q bk => (q - bk) ^ 2)
              (List.zipWith agWU.ac.q2 ubW.obs ubW.act)
              (backupOf agWU ubW.rew ubW.obs2 ubW.done))) :=
  ⟨(critic_loss_formula agW [0] [tW] [1] ubW).1 rfl,
   (critic_loss_formula agWU [0] [tW] [1] ubW).2 rfl⟩

/-- C2: every call of `learn` performs the critic update; exactly the
calls with `learn_step % policy_delay == 0` perform the actor update and
replace every target parameter by `polyak·old_target + (1−polyak)·live`,
while all other calls leave the target parameters identical to their
pre-step values. -/
theorem learn_update_schedule (Uq Upi : Vec → Vec) (pd : ℕ) (polyak : ℚ)
    (st : LearnState) :
    (learn Uq Upi pd polyak st).qGradSteps = st.qGradSteps + 1
    ∧ (learn Uq Upi pd polyak st).learn_step = st.learn_step + 1
    ∧ (st.learn_step % pd = 0 →
        (learn Uq Upi pd polyak st).piGradSteps = st.piGradSteps + 1
        ∧ (learn Uq Upi pd polyak st).q_targ
            = polyakUpdate polyak st.q_targ (Uq st.q)
        ∧ (learn Uq Upi pd polyak st).pi_targ
            = polyakUpdate polyak st.pi_targ (Upi st.pi)
        ∧ (learn Uq Upi pd polyak st).q = Uq st.q
        ∧ (learn Uq Upi pd polyak st).pi = Upi st.pi)
    ∧ (st.learn_step % pd ≠ 0 →
        (learn Uq Upi pd polyak st).piGradSteps = st.piGradSteps
        ∧ (learn Uq Upi pd polyak st).q_targ = st.q_targ
        ∧ (learn Uq Upi pd polyak st).pi_targ = st.pi_targ
        ∧ (learn Uq Upi pd polyak st).q = Uq st.q
        ∧ (learn Uq Upi pd polyak st).pi = st.pi) := by
  by_cases h : st.learn_step % pd = 0 <;> simp [learn, h]

/-- Witness for C2: a delayed call (`learn_step = 0`, `policy_delay = 2`)
and a non-delayed call (`learn_step = 1`). -/
theorem learn_update_schedule_witness :
    ((learn id id 2 (99/100) stA).piGradSteps = stA.piGradSteps + 1
      ∧ (learn id id 2 (99/100) stA).q_targ
          = polyakUpdate (99/100) stA.q_targ (id stA.q))
    ∧ ((learn id id 2 (99/100) stB).piGradSteps = stB.piGradSteps
      ∧ (learn id id 2 (99/100) stB).q_targ = stB.q_targ) := by
  refine ⟨?_, ?_⟩
  · have h := (learn_update_schedule id id 2 (99/100) stA).2.2.1 (by decide)
    exact ⟨h.1, h.2.1⟩
  · have h := (learn_update_schedule id id 2 (99/100) stB).2.2.2 (by decide)
    exact ⟨h.1, h.2.1⟩

/-- C3 counterexample: with `policy_delay = 2` (and `polyak = 99/100`),
the FIRST call (`step_counter = 0`) already performs the actor update and
moves the target parameters, because `0 % 2 == 0` — the claim states the
first call updates only the critic and leaves the targets unchanged. -/
theorem first_call_updates_actor_and_targets :
    (learn id id 2 (99/100) stA).q_targ ≠ stA.q_targ
    ∧ (learn id id 2 (99/100) stA).piGradSteps ≠ stA.piGradSteps := by
  constructor
  · norm_num [learn, stA, initLearnStep, polyakUpdate]
  · decide

/-- C3 (amended): with `policy_delay = 2`, `polyak = 99/100`, the first
call (`step_counter = 0`) performs the critic update AND the actor update
AND moves every target parameter by exactly 1% toward the live parameter,
while the second call (`step_counter = 1`) performs only the critic update
and leaves the target parameters unchanged. -/
theorem delayed_updates_first_two_calls (Uq Upi : Vec → Vec) (st : LearnState)
    (h : st.learn_step = initLearnStep) :
    ((learn Uq Upi 2 (99/100) st).qGradSteps = st.qGradSteps + 1
      ∧ (learn Uq Upi 2 (99/100) st).piGradSteps = st.piGradSteps + 1
      ∧ (learn Uq Upi 2 (99/100) st).q_targ
          = List.zipWith (fun t p => t + 1/100 * (p - t)) st.q_targ (Uq st.q)
      ∧ (learn Uq Upi 2 (99/100) st).pi_targ
          = List.zipWith (fun t p => t + 1/100 * (p - t)) st.pi_targ (Upi st.pi))
    ∧ ((learn Uq Upi 2 (99/100) (learn Uq Upi 2 (99/100) st)).qGradSteps
          = (learn Uq Upi 2 (99/100) st).qGradSteps + 1
      ∧ (learn Uq Upi 2 (99/100) (learn Uq Upi 2 (99/100) st)).piGradSteps
          = (learn Uq Upi 2 (99/100) st).piGradSteps
      ∧ (learn Uq Upi 2 (99/100) (learn Uq Upi 2 (99/100) st)).q_targ
          = (learn Uq Upi 2 (99/100) st).q_targ
      ∧ (learn Uq Upi 2 (99/100) (learn Uq Upi 2 (99/100) st)).pi_targ
          = (learn Uq Upi 2 (99/100) st).pi_targ) := by
  refine ⟨⟨?_, ?_, ?_, ?_⟩, ⟨?_, ?_, ?_, ?_⟩⟩ <;>
    simp [learn, h, initLearnStep, polyakUpdate_onepercent]

/-- Witness for C3 (amended) at a concrete state with `learn_step = 0`. -/
theorem delayed_updates_first_two_calls_witness :
    (learn id id 2 (99/100) stA).piGradSteps = stA.piGradSteps + 1
    ∧ (learn id id 2 (99/100) (learn id id 2 (99/100) stA)).piGradSteps
        = (learn id id 2 (99/100) stA).piGradSteps :=
  ⟨(delayed_updates_first_two_calls id id stA rfl).1.2.1,
   (delayed_updates_first_two_calls id id stA rfl).2.2.1⟩

/-- C4 (amended): in prioritized mode the per-sample priority signal is
`abs_errors = |backup − (Q1+Q2)/2|`, paired positionally with the sampled
batch's tree indices; in the concrete scenario with backup = [1,2,3,4],
Q1 = [1,1,3,5], Q2 = [1,3,3,3] the abs_errors are [0, 0, 0, 0]. -/
theorem abs_errors_formula (ag : Agent) (tree : List ℕ)
    (batch : List Transition) (w : List ℚ) (h : ag.per_flag = true) :
    (absErrorsOf (compute_loss_q ag (.per tree batch w))
        = some (batch.map (specAbsError ag))
      ∧ treeIdxOf (compute_loss_q ag (.per tree batch w)) = some tree)
    ∧ (q1ValsOf (compute_loss_q c4Agent c4Data) = some [1, 1, 3, 5]
      ∧ q2ValsOf (compute_loss_q c4Agent c4Data) = some [1, 3, 3, 3]
      ∧ absErrorsOf (compute_loss_q c4Agent c4Data) = some [0, 0, 0, 0]) := by
  refine ⟨⟨?_, ?_⟩, ⟨?_, ?_, ?_⟩⟩
  · simp only [compute_loss_q, h, absErrorsOf, lossCore, backupOf_map,
      zipWith_map_same, zipWith3_map_same, specAbsError]
    rfl
  · simp [compute_loss_q, h, treeIdxOf, lossCore]
  · norm_num [compute_loss_q, c4Agent, c4Data, c4Batch, c4AC, lossCore,
      backupOf, zipWith3, q1ValsOf]
  · norm_num [compute_loss_q, c4Agent, c4Data, c4Batch, c4AC, lossCore,
      backupOf, zipWith3, q2ValsOf]
  · norm_num [compute_loss_q, c4Agent, c4Data, c4Batch, c4AC, lossCore,
      backupOf, zipWith3, absErrorsOf]

/-- Witness for C4 (amended) at a concrete prioritized batch. -/
theorem abs_errors_formula_witness :
    absErrorsOf (compute_loss_q agW (.per [0] [tW] [1]))
        = some ([tW].map (specAbsError agW))
    ∧ treeIdxOf (compute_loss_q agW (.per [0] [tW] [1])) = some [0] :=
  (abs_errors_formula agW [0] [tW] [1] rfl).1

/-- C4 counterexample: in the claim's concrete scenario — realized by
`c4Agent`/`c4Data`, whose backup tensor is [1,2,3,4] with Q1 = [1,1,3,5]
and Q2 = [1,3,3,3] — the code's abs_errors are [0,0,0,0], not
[0,0,0,0.5]: in the fourth sample |4 − (5+3)/2| = 0. -/
theorem c4_scenario_abs_errors_ne :
    backupOf c4Agent (c4Batch.map (·.r)) (c4Batch.map (·.o2))
        (c4Batch.map (·.d)) = [1, 2, 3, 4]
    ∧ absErrorsOf (compute_loss_q c4Agent c4Data) ≠ some [0, 0, 0, 1/2] := by
  constructor
  · norm_num [c4Agent, c4Batch, c4AC, backupOf, zipWith3]
  · norm_num [compute_loss_q, c4Agent, c4Data, c4Batch, c4AC, lossCore,
      backupOf, zipWith3, absErrorsOf]

/-- C5: the claim says the critic parameters have `requires_grad` set to
`False` during the delayed actor backward pass.  The source's freeze loop
iterates `self.q_params`, an `itertools.chain` one-shot iterator that the
`Adam` constructor in `__init__` has already exhausted — so the loop body
never runs and every critic parameter still has `requires_grad = True`
during the actor backward pass (and the unfreeze loop is equally a no-op). -/
theorem critic_flags_not_frozen (n : ℕ) :
    (actorStepQFlags (initQGrad n)).1 = List.replicate n true := rfl

/-- C6 counterexample: with the default constructor `act_noise = 1/10`,
`get_action(s, noise_scale=0)` replaces the zero scale by `act_noise`,
samples stochastically and adds scaled noise — two calls at the same fixed
observation and parameters but different RNG draws return different
actions. -/
theorem zero_arg_not_reproducible :
    get_action c6Agent [0] 0 [0] (fun _ => 0)
      ≠ get_action c6Agent [0] 0 [0] (fun _ => 10) := by
  norm_num [get_action, c6Agent, normObs, clipVec, addNoise, min_def, max_def]

/-- C6 (amended): for a fixed observation and fixed parameters, calling
the action selector with `noise_scale = 0` evaluates the policy
deterministically (the clipped mean action) and reproducibly — provided
the constructor-configured `act_noise` is itself 0, since a zero argument
is replaced by that stored value. -/
theorem zero_noise_deterministic (ag : ActAgent) (s p1 p2 : Vec)
    (r1 r2 : ℕ → ℚ) (h : ag.action_noise = 0) :
    get_action ag s 0 p1 r1 = clipVec ag.a_bound (ag.actMean (normObs ag s))
    ∧ get_action ag s 0 p1 r1 = get_action ag s 0 p2 r2 := by
  have key : ∀ (p : Vec) (r : ℕ → ℚ),
      get_action ag s 0 p r = clipVec ag.a_bound (ag.actMean (normObs ag s)) := by
    intro p r
    simp [get_action, h, addNoise_zero]
  exact ⟨key p1 r1, (key p1 r1).trans (key p2 r2).symm⟩

/-- Witness for C6 (amended): concrete agent with `act_noise = 0`, two
different draws. -/
theorem zero_noise_deterministic_witness :
    get_action c6AgentDet [0] 0 [5] (fun _ => 7)
      = clipVec c6AgentDet.a_bound (c6AgentDet.actMean (normObs c6AgentDet [0]))
    ∧ get_action c6AgentDet [0] 0 [5] (fun _ => 7)
      = get_action c6AgentDet [0] 0 [3] (fun _ => 1) :=
  zero_noise_deterministic c6AgentDet [0] [5] [3] (fun _ => 7) (fun _ => 1) rfl

/-- C7: for every batch, the actor loss equals
`mean(alpha·logp(a) − min(Q1(o,a), Q2(o,a)))` where `(a, logp(a))` is
freshly resampled from the live policy at the batch observations and both
live critics are evaluated at `(o, a)`. -/
theorem actor_loss_formula (ag : Agent) (tree : List ℕ)
    (batch : List Transition) (w : List ℚ) (b : UBatch) :
    (ag.per_flag = true →
      lossPiOf (compute_loss_pi ag (.per tree batch w))
        = some (specLossPi ag (batch.map (·.o))))
    ∧ (ag.per_flag = false →
      lossPiOf (compute_loss_pi ag (.uniform b)) = some (specLossPi ag b.obs)) := by
  constructor <;> intro h <;>
    simp [compute_loss_pi, h, lossPiOf, lossPiCore_eq_spec]

/-- Witness for C7 at concrete agents and batches, in both modes. -/
theorem actor_loss_formula_witness :
    lossPiOf (compute_loss_pi agW (.per [0] [tW] [1]))
        = some (specLossPi agW ([tW].map (·.o)))
    ∧ lossPiOf (compute_loss_pi agWU (.uniform ubW)) = some (specLossPi agWU ubW.obs) :=
  ⟨(actor_loss_formula agW [0] [tW] [1] ubW).1 rfl,
   (actor_loss_formula agWU [0] [tW] [1] ubW).2 rfl⟩

/-- C8: if prioritized mode is active but the sampled batch is the plain
field map instead of an `(identifiers, batch, weights)` triple, the
learning step fails immediately at the unpacking (both loss computations
raise), rather than silently skipping priority feedback. -/
theorem per_mismatch_fails_fast (ag : Agent) (b : UBatch) (h : ag.per_flag = true) :
    compute_loss_q ag (.uniform b)
        = .error "ValueError: too many values to unpack (expected 3)"
    ∧ compute_loss_pi ag (.uniform b)
        = .error "ValueError: too many values to unpack (expected 3)" := by
  constructor <;> simp [compute_loss_q, compute_loss_pi, h]

/-- Witness for C8 at a concrete prioritized agent and field-map batch. -/
theorem per_mismatch_fails_fast_witness :
    compute_loss_q agW (.uniform ubW)
        = .error "ValueError: too many values to unpack (expected 3)"
    ∧ compute_loss_pi agW (.uniform ubW)
        = .error "ValueError: too many values to unpack (expected 3)" :=
  per_mismatch_fails_fast agW ubW rfl

/-- C9: for every batch in which every sample has done flag `d = 1`, the
backup tensor equals the reward tensor exactly — the factor `(1−d) = 0`
multiplies both the min-target-Q term and the `alpha·logp(a2)` entropy
term, so the result does not depend on the target networks or on alpha. -/
theorem terminal_backup_eq_reward (ag : Agent) (batch : List Transition)
    (h : ∀ t ∈ batch, t.d = 1) :
    backupOf ag (batch.map (·.r)) (batch.map (·.o2)) (batch.map (·.d))
      = batch.map (·.r) := by
  rw [backupOf_map]
  refine List.map_congr_left ?_
  intro t ht
  simp [specBackup, h t ht]

/-- Witness for C9 at a concrete all-terminal batch. -/
theorem terminal_backup_eq_reward_witness :
    backupOf agW ([tW].map (·.r)) ([tW].map (·.o2)) ([tW].map (·.d))
      = [tW].map (·.r) :=
  terminal_backup_eq_reward agW [tW] (by intro t ht; simp_all [tW])

/-- C10: a zero (or omitted, since it defaults to 0) `noise_scale`
argument is replaced by the constructor-configured `act_noise`: the call
coincides with passing `act_noise` directly; the policy is evaluated
deterministically with no noise added exactly when that stored value is
itself 0, and otherwise the stochastic draw is used and Gaussian noise
scaled by `act_noise` is added before clipping. -/
theorem zero_arg_applies_act_noise (ag : ActAgent) (s p : Vec) (r : ℕ → ℚ) :
    get_action ag s 0 p r = get_action ag s ag.action_noise p r
    ∧ (ag.action_noise = 0 →
        get_action ag s 0 p r = clipVec ag.a_bound (ag.actMean (normObs ag s)))
    ∧ (ag.action_noise ≠ 0 →
        get_action ag s 0 p r
          = clipVec ag.a_bound (addNoise ag.action_noise r p 0)) := by
  by_cases h : ag.action_noise = 0
  · refine ⟨?_, fun _ => ?_, fun hn => absurd h hn⟩ <;>
      simp [get_action, h, addNoise_zero]
  · refine ⟨?_, fun h0 => absurd h0 h, fun _ => ?_⟩ <;>
      simp [get_action, h]

/-- Witness for C10 at a concrete agent with nonzero `act_noise`. -/
theorem zero_arg_applies_act_noise_witness :
    get_action c6Agent [0] 0 [0] (fun _ => 10)
      = clipVec c6Agent.a_bound (addNoise c6Agent.action_noise (fun _ => 10) [0] 0) :=
  (zero_arg_applies_act_noise c6Agent [0] [0] (fun _ => 10)).2.2
    (by norm_num [c6Agent])

end SacPerHer
